import Mathlib

/-!
Shallow embedding of the task-board application's auth and data layer:
the user directory, the passkey ceremony coordinator, the session
manager, the task CRUD routes and the database-connection memoization,
translated from the TypeScript source, together with theorems settling
the specification's claims about them.

Modelling conventions:
- the SurrealDB record store is a list of records per table; `db.create`
  appends, `db.select` is `List.find?`, `db.merge` maps, `db.delete`
  filters;
- promises are evaluated sequentially, so an `async` function becomes a
  pure function from its inputs (including the current store contents)
  to its result and the updated store; a thrown exception becomes an
  `Except.error` or a `none` where the source catches it;
- the external Hanko passkey provider is a `Provider` record of outcomes
  for its four calls (`none` models a call that throws); provider
  option objects are represented by their `publicKey` payload string;
- ISO-8601 timestamp strings are abstracted to `Nat` (the abstraction
  preserves ordering, which is all the code compares);
- zod schema parsing of a fetched record becomes a boolean validity
  check on the record structure.
-/

namespace Solid

/-- A SurrealDB record id object `{tb, id}` as handled by `recordLink`
in `schema.ts`. -/
structure RecordIdObj where
  tb : String
  id : String
deriving DecidableEq, Repr

/-- Split a character list at every occurrence of `c` (accumulator
holds the current field reversed). -/
def splitOnCharAux (c : Char) : List Char → List Char → List String
  | [], acc => [String.mk acc.reverse]
  | x :: xs, acc =>
    if x = c then String.mk acc.reverse :: splitOnCharAux c xs []
    else splitOnCharAux c xs (x :: acc)

/-- JS `s.split(c)` for a one-character separator (kernel-reducible
rendering of `String.splitOn`): `""` gives `[""]`, a separator at
either end gives an empty field. -/
def splitOnChar (c : Char) (s : String) : List String :=
  splitOnCharAux c s.data []

/-- JS `s.startsWith(pre)`. -/
def strStartsWith (pre s : String) : Bool :=
  pre.data.isPrefixOf s.data

/-- Simplified stand-in for zod's `z.string().email()` refinement:
exactly one `@` separating two non-empty parts.  The claims settled
here depend only on some strings failing the check, not on the exact
regular expression zod uses. -/
def emailValid (s : String) : Bool :=
  match splitOnChar '@' s with
  | [lp, dp] => !(lp == "") && !(dp == "")
  | _ => false

/-- The raw shape of a `user` record as returned by the store
(`userSchema` fields from `schema.ts`). -/
structure User where
  id : RecordIdObj
  email : String
  name : Option String
deriving DecidableEq, Repr

/-- `userSchema.safeParse` success condition: the id is a record link
into the `user` table and the email passes the email refinement. -/
def userValid (u : User) : Bool :=
  u.id.tb == "user" && emailValid u.email

/-- `userSchema.safeParse` as an `Option`: `some` on success. -/
def userParse (u : User) : Option User :=
  if userValid u then some u else none

/-- `getUserByEmail` from `auth.ts`: `SELECT * FROM user WHERE email =
$email LIMIT 1`, then zod-parse the first record; both the empty result
and a parse failure return `null`. -/
def getUserByEmail (users : List User) (email : String) : Option User :=
  match (users.filter (fun u => u.email == email)).head? with
  | none => none
  | some r => userParse r

/-- JS `s.split(":", 2)`: at most the first two `:`-separated fields. -/
def jsSplit2 (s : String) : List String :=
  (splitOnChar ':' s).take 2

/-- Whether JS `s.includes(":")` holds. -/
def hasColon (s : String) : Bool :=
  (splitOnChar ':' s).length > 1

/-- `getUserById` from `auth.ts`: normalise the id to `user:<id>` form,
split it, select by record id, zod-parse; invalid format, a missing
record and a parse failure all return `null`. -/
def getUserById (users : List User) (id : String) : Option User :=
  let full := if hasColon id then id else "user:" ++ id
  match jsSplit2 full with
  | [t, r] =>
    if t == "" || r == "" then none
    else
      match users.find? (fun u => u.id == RecordIdObj.mk t r) with
      | none => none
      | some rec0 => userParse rec0
  | _ => none

/-- `createUser` from `auth.ts`: `db.create("user", {email})` appends a
record with a store-generated id, then zod-parses the created record;
on parse failure it returns `null` (the record stays in the store). -/
def createUser (users : List User) (genId : String) (email : String) :
    List User × Option User :=
  let newRec : User := ⟨⟨"user", genId⟩, email, none⟩
  (users ++ [newRec], userParse newRec)

/-- The decoded JWT payload of the token returned by the provider's
`login.finalize` (`jose.decodeJwt` in `auth.ts`). -/
structure TokenPayload where
  sub : Option String
  email : Option String
deriving DecidableEq, Repr

/-- Outcomes of the external Hanko passkey provider's calls for one
request: `none` models a call that throws; option objects are
represented by their `publicKey` payload. -/
structure Provider where
  loginInit : Option String
  regInit : Option String
  regFinalizeOk : Bool
  loginFinalize : Option TokenPayload
deriving DecidableEq, Repr

/-- `startServerPasskeyLogin` from `auth.ts`: look the email up; an
unknown email returns `null`; otherwise call the provider's
`login.initialize`, returning its options or — per the explicit
`catch` — `null` when the provider throws. -/
def startServerPasskeyLogin (users : List User) (provider : Provider)
    (email : String) : Option String :=
  match getUserByEmail users email with
  | none => none
  | some _ => provider.loginInit

/-- `startServerPasskeyRegistration` from `auth.ts`: throws if the
email already resolves to a user; otherwise creates the user, throws
if creation (or zod-parsing of the created record) fails, then asks
the provider for registration options, returning them with the new
`user:<id>` string.  The result pairs the updated user table with the
thrown message or the returned value. -/
def startServerPasskeyRegistration (users : List User)
    (provider : Provider) (genId : String) (email : String) :
    List User × Except String (String × String) :=
  match getUserByEmail users email with
  | some _ => (users, .error ("Email " ++ email ++ " is already registered."))
  | none =>
    match createUser users genId email with
    | (users', none) =>
      (users', .error "Failed to create user before passkey registration.")
    | (users', some u) =>
      match provider.regInit with
      | none => (users', .error "provider registration initialize failed")
      | some opts => (users', .ok (opts, u.id.tb ++ ":" ++ u.id.id))

/-- The JSON body produced by the `start` branch of
`POST /api/passkeys/login`. -/
structure StartResponse where
  status : Nat
  message : Option String
  loginOptions : Option String
  registrationOptions : Option String
  userId : Option String
  isRegistering : Option Bool
deriving DecidableEq, Repr

/-- The `start && email` branch of the `POST` handler in
`routes/api/passkeys/login.ts`: try login first; a `null` from
`startServerPasskeyLogin` takes the registration branch, whose thrown
errors are caught and mapped to status 409. -/
def passkeysPOSTStart (users : List User) (provider : Provider)
    (genId : String) (email : String) : List User × StartResponse :=
  match startServerPasskeyLogin users provider email with
  | some opts =>
    (users, ⟨200, none, some opts, none, none, some false⟩)
  | none =>
    match startServerPasskeyRegistration users provider genId email with
    | (users', .error msg) => (users', ⟨409, some msg, none, none, none, none⟩)
    | (users', .ok (opts, uid)) =>
      (users', ⟨200, none, none, some opts, some uid, some true⟩)

/-- The client-supplied credential payload consumed by
`storePasskeyCredential` (`credential.id`, `credential.publicKey ||
credential.response?.publicKey`, `credential.response?.transports`,
`credential.response?.counter`). -/
structure Credential where
  id : String
  publicKey : Option String
  transports : List String
  counter : Nat
deriving DecidableEq, Repr

/-- A stored `passkey` record (`passkeySchema` fields from
`schema.ts`). -/
structure Passkey where
  id : RecordIdObj
  userId : String
  credentialId : String
  publicKey : String
  transports : List String
  counter : Nat
  createdAt : Nat
deriving DecidableEq, Repr

/-- `passkeySchema.safeParse` success condition: record link into the
`passkey` table, `userId` a `user:`-prefixed record-link string. -/
def passkeyValid (p : Passkey) : Bool :=
  p.id.tb == "passkey" && strStartsWith "user:" p.userId

/-- `storePasskeyCredential` from `auth.ts`: `db.create("passkey", …)`
appends a record with a store-generated id, then zod-parses it; a
parse failure returns `null` (the record stays in the store). -/
def storePasskeyCredential (passkeys : List Passkey) (genId : String)
    (userId : String) (c : Credential) (now : Nat) :
    List Passkey × Option Passkey :=
  let rec0 : Passkey :=
    ⟨⟨"passkey", genId⟩, userId, c.id, c.publicKey.getD "N/A",
      c.transports, c.counter, now⟩
  (passkeys ++ [rec0], if passkeyValid rec0 then some rec0 else none)

/-- `finishServerPasskeyRegistration` from `auth.ts`: finalize with the
provider, then store the credential; either failure is rethrown as
`"Passkey registration finalization or storage failed."` (`false`
here).  The provider is never given the `userId`, and the `userId` is
never checked against the user table. -/
def finishServerPasskeyRegistration (provider : Provider)
    (passkeys : List Passkey) (genId : String) (userId : String)
    (c : Credential) (now : Nat) : List Passkey × Bool :=
  if !provider.regFinalizeOk then (passkeys, false)
  else
    match storePasskeyCredential passkeys genId userId c now with
    | (pk', none) => (pk', false)
    | (pk', some _) => (pk', true)

/-- `finishServerPasskeyLogin` from `auth.ts`: finalize with the
provider, decode the token, resolve `user:<sub>` in the user table,
falling back to the token's email claim; every failure is caught and
returned as `null`. -/
def finishServerPasskeyLogin (users : List User) (provider : Provider)
    (_c : Credential) : Option (User × String) :=
  match provider.loginFinalize with
  | none => none
  | some tok =>
    match tok.sub with
    | none => none
    | some hankoId =>
      match getUserById users ("user:" ++ hankoId) with
      | some u => some (u, u.id.tb ++ ":" ++ u.id.id)
      | none =>
        match tok.email with
        | none => none
        | some e =>
          match getUserByEmail users e with
          | none => none
          | some u => some (u, u.id.tb ++ ":" ++ u.id.id)

/-- Modelled from the spec: the session manager is the external
`vinxi/http` `useSession` helper, absent from the source (only its
callers are).  §4.4: the session data carries the authenticated user
id. -/
structure SessionData where
  userId : Option String
deriving DecidableEq, Repr

/-- Modelled from the spec: `read()` decrypts the cookie if present; an
absent or invalid cookie yields an empty/default session, never a
throw (§4.4). -/
def sessionRead (cookie : Option SessionData) : SessionData :=
  cookie.getD ⟨none⟩

/-- Modelled from the spec: `update(patch)` merges the patch's fields
into the session and re-sets the cookie (§4.4); every caller's patch
assigns the `userId` field, so the merge sets it. -/
def sessionUpdate (cookie : Option SessionData)
    (newUserId : Option String) : Option SessionData :=
  match cookie with
  | _ => some ⟨newUserId⟩

/-- Modelled from the spec: `clear()` removes the authenticated
identifier and invalidates the cookie (§4.4). -/
def sessionClear (_cookie : Option SessionData) : Option SessionData :=
  none

/-- The JSON body and session effect of the `finish` branch of
`POST /api/passkeys/login`. -/
structure FinishResponse where
  status : Nat
  message : Option String
deriving DecidableEq, Repr

/-- The `finish && credential` branch of the `POST` handler in
`routes/api/passkeys/login.ts`: a present `userId` field selects the
registration finish (the session is then set to that client-supplied
string); otherwise the login finish resolves the user from the
provider token.  Returns the passkey table, the session cookie and the
response. -/
def passkeysPOSTFinish (users : List User) (passkeys : List Passkey)
    (provider : Provider) (genId : String) (now : Nat)
    (cookie : Option SessionData) (c : Credential)
    (userId : Option String) :
    List Passkey × Option SessionData × FinishResponse :=
  match userId with
  | some uid =>
    match finishServerPasskeyRegistration provider passkeys genId uid c now with
    | (pk', false) =>
      (pk', cookie,
        ⟨500, some "Passkey registration finalization or storage failed."⟩)
    | (pk', true) =>
      (pk', sessionUpdate cookie (some uid),
        ⟨200, some "Registration successful."⟩)
  | none =>
    match finishServerPasskeyLogin users provider c with
    | none => (passkeys, cookie, ⟨401, some "Passkey login failed."⟩)
    | some (_, uidStr) =>
      (passkeys, sessionUpdate cookie (some uidStr),
        ⟨200, some "Passkey login successful."⟩)

/-- `taskSchema` status enum from `schema.ts`. -/
inductive TaskStatus
  | todo | inprogress | done | canceled
deriving DecidableEq, Repr

/-- `taskSchema` label enum from `schema.ts`. -/
inductive TaskLabel
  | bug | feature | documentation
deriving DecidableEq, Repr

/-- `taskSchema` priority enum from `schema.ts`. -/
inductive TaskPriority
  | low | moderate | high
deriving DecidableEq, Repr

/-- A stored `task` record (`taskSchema` fields from `schema.ts`);
timestamps are abstracted to `Nat`. -/
structure TaskRecord where
  id : RecordIdObj
  title : String
  description : Option String
  status : TaskStatus
  label : TaskLabel
  priority : TaskPriority
  author : RecordIdObj
  createdAt : Nat
  updatedAt : Nat
deriving DecidableEq, Repr

/-- `taskSchema.safeParse` success condition on a stored record: id
links into the `task` table, title has at least 2 characters, author
links into the `user` table (the enum fields are already typed). -/
def taskValid (t : TaskRecord) : Bool :=
  t.id.tb == "task" && decide (2 ≤ t.title.length) && t.author.tb == "user"

/-- The client payload of `POST /api/tasks` after the typed enum
fields; `taskInputSchema` = `taskSchema` minus id/author/timestamps. -/
structure TaskInput where
  title : String
  description : Option String
  status : TaskStatus
  label : TaskLabel
  priority : TaskPriority
deriving DecidableEq, Repr

/-- `taskInputSchema.safeParse` success condition: title length ≥ 2. -/
def taskInputValid (p : TaskInput) : Bool :=
  decide (2 ≤ p.title.length)

/-- How the record store interprets a record-id / record-link string
(`task:abc`, `user:xyz`) handed to `db.create`: table and id separated
by a single `:`; anything else is not a link (the source's comments
note the store returns `author` back as a `{tb, id}` object). -/
def strToLink (s : String) : Option RecordIdObj :=
  match splitOnChar ':' s with
  | [t, r] => if t == "" || r == "" then none else some ⟨t, r⟩
  | _ => none

/-- The task-id parsing pattern shared by `getTaskAndCheckAuth`,
`PATCH` and `DELETE` in `routes/api/tasks/[id].ts`:
`taskId.includes(":") ? taskId.split(":", 2) : ["task", taskId]`, then
reject an empty table or record part. -/
def routeParseTaskId (taskId : String) : Option RecordIdObj :=
  match if hasColon taskId then jsSplit2 taskId else ["task", taskId] with
  | [t, r] => if t == "" || r == "" then none else some ⟨t, r⟩
  | _ => none

/-- `getTaskAndCheckAuth` from `routes/api/tasks/[id].ts`: parse the
id (400), select the record (404), zod-validate it (500), then compare
`author.tb:author.id` against the session user (403). -/
def getTaskAndCheckAuth (tasks : List TaskRecord) (taskId : String)
    (sessionUserId : String) : Except (Nat × String) TaskRecord :=
  match routeParseTaskId taskId with
  | none => .error (400, "Invalid Task ID format")
  | some rid =>
    match tasks.find? (fun t => t.id == rid) with
    | none => .error (404, "Task not found")
    | some t =>
      if !taskValid t then .error (500, "Failed to validate fetched task")
      else if (t.author.tb ++ ":" ++ t.author.id) == sessionUserId then .ok t
      else .error (403, "Forbidden: You do not own this task")

/-- A task-route JSON response: status and, on success, the record. -/
structure TaskApiResponse where
  status : Nat
  data : Option TaskRecord
deriving DecidableEq, Repr

/-- The task record assembled by the create route: the client payload
plus the parsed `task:<nanoid>` record id, the parsed author link and
the two timestamp reads of the handler. -/
def createdTask (payload : TaskInput) (rid a : RecordIdObj)
    (now1 now2 : Nat) : TaskRecord :=
  ⟨rid, payload.title, payload.description, payload.status,
    payload.label, payload.priority, a, now1, now2⟩

/-- The `POST` handler of `routes/api/tasks.ts`: 401 without a session
user, 400 on payload validation failure, then `db.create` of
`task:<nanoid>` with `author` set to the session user string and both
timestamps server-assigned (`now1` then `now2`, the two sequential
`new Date()` calls), then zod-parse of the created record (500 when it
fails, e.g. a non-link author). -/
def tasksPOST (session : SessionData) (tasks : List TaskRecord)
    (genId : String) (now1 now2 : Nat) (payload : TaskInput) :
    List TaskRecord × TaskApiResponse :=
  match session.userId with
  | none => (tasks, ⟨401, none⟩)
  | some uid =>
    if !taskInputValid payload then (tasks, ⟨400, none⟩)
    else
      match strToLink ("task:" ++ genId) with
      | none => (tasks, ⟨500, none⟩)
      | some rid =>
        if (tasks.find? (fun t => t.id == rid)).isSome then (tasks, ⟨500, none⟩)
        else
          let authorObj := match strToLink uid with
            | some a => a
            | none => ⟨"", uid⟩
          let rec0 := createdTask payload rid authorObj now1 now2
          if taskValid rec0 then (tasks ++ [rec0], ⟨201, some rec0⟩)
          else (tasks ++ [rec0], ⟨500, none⟩)

/-- A `PATCH /api/tasks/:id` payload: the updatable subset of
`taskSchema`, all fields optional (`taskSchema.partial().omit(…)`). -/
structure TaskPatch where
  title : Option String
  description : Option String
  status : Option TaskStatus
  label : Option TaskLabel
  priority : Option TaskPriority
deriving DecidableEq, Repr

/-- `taskUpdateSchema.safeParse` success condition: a provided title
has length ≥ 2. -/
def patchValid (p : TaskPatch) : Bool :=
  match p.title with
  | some t => decide (2 ≤ t.length)
  | none => true

/-- Whether the PATCH payload provides at least one field
(`Object.keys(validationResult.data).length === 0` check). -/
def patchNonempty (p : TaskPatch) : Bool :=
  p.title.isSome || p.description.isSome || p.status.isSome ||
    p.label.isSome || p.priority.isSome

/-- `db.merge` of the update data into a task record, with
`updatedAt` set to the request time. -/
def applyPatch (t : TaskRecord) (p : TaskPatch) (now : Nat) : TaskRecord :=
  { t with
    title := p.title.getD t.title
    description := match p.description with
      | some d => some d
      | none => t.description
    status := p.status.getD t.status
    label := p.label.getD t.label
    priority := p.priority.getD t.priority
    updatedAt := now }

/-- The `PATCH` handler of `routes/api/tasks/[id].ts`: 401 without a
session user, 400 on a missing/invalid id, then `getTaskAndCheckAuth`
(whose error response is returned as-is), then payload validation
(400), then `db.merge` and zod-parse of the merged record. -/
def tasksPATCH (session : SessionData) (tasks : List TaskRecord)
    (taskId : String) (payload : TaskPatch) (now : Nat) :
    List TaskRecord × TaskApiResponse :=
  match session.userId with
  | none => (tasks, ⟨401, none⟩)
  | some uid =>
    if taskId == "" then (tasks, ⟨400, none⟩)
    else
      match routeParseTaskId taskId with
      | none => (tasks, ⟨400, none⟩)
      | some rid =>
        match getTaskAndCheckAuth tasks taskId uid with
        | .error e => (tasks, ⟨e.1, none⟩)
        | .ok _ =>
          if !patchValid payload then (tasks, ⟨400, none⟩)
          else if !patchNonempty payload then (tasks, ⟨400, none⟩)
          else
            let tasks' := tasks.map fun t =>
              if t.id == rid then applyPatch t payload now else t
            match tasks'.find? (fun t => t.id == rid) with
            | none => (tasks', ⟨500, none⟩)
            | some t' =>
              if taskValid t' then (tasks', ⟨200, some t'⟩)
              else (tasks', ⟨500, none⟩)

/-- The `DELETE` handler of `routes/api/tasks/[id].ts`: the same
guards and `getTaskAndCheckAuth`, then `db.delete` and 204. -/
def tasksDELETE (session : SessionData) (tasks : List TaskRecord)
    (taskId : String) : List TaskRecord × TaskApiResponse :=
  match session.userId with
  | none => (tasks, ⟨401, none⟩)
  | some uid =>
    if taskId == "" then (tasks, ⟨400, none⟩)
    else
      match routeParseTaskId taskId with
      | none => (tasks, ⟨400, none⟩)
      | some rid =>
        match getTaskAndCheckAuth tasks taskId uid with
        | .error e => (tasks, ⟨e.1, none⟩)
        | .ok _ => (tasks.filter (fun t => !(t.id == rid)), ⟨204, none⟩)

/-- The module state of `surreal.ts`: the memoized
`connectionPromise`, `none` before the first call, `some r` once a
connect attempt has been started (`r` records whether that promise
resolved or rejected). -/
structure ConnState where
  connectionPromise : Option Bool
deriving DecidableEq, Repr

/-- What one call to `getSurrealConnection` yields: the new module
state, whether the returned promise resolves, and whether this call
started a fresh connect attempt. -/
structure ConnCall where
  state : ConnState
  resolvedOk : Bool
  attempted : Bool
deriving DecidableEq, Repr

/-- `getSurrealConnection` from `surreal.ts` (server side): if
`connectionPromise` is set it is returned unchanged — whatever it
settled to — and no new attempt is made; otherwise, missing
configuration rejects without memoizing, and a fresh connect attempt
is started and memoized, resolving or rejecting with the attempt. -/
def getSurrealConnection (st : ConnState) (configOk : Bool)
    (attemptSucceeds : Bool) : ConnCall :=
  match st.connectionPromise with
  | some r => ⟨st, r, false⟩
  | none =>
    if !configOk then ⟨st, false, false⟩
    else ⟨⟨some attemptSucceeds⟩, attemptSucceeds, true⟩

/-- Concrete user record (valid shape) used by the closed theorems. -/
def exUser : User := ⟨⟨"user", "u1"⟩, "a@x.com", none⟩

/-- Concrete user record whose email fails the shape validation. -/
def exBadUser : User := ⟨⟨"user", "u2"⟩, "noemail", none⟩

/-- Concrete task record used by the closed theorems. -/
def exTask : TaskRecord :=
  ⟨⟨"task", "abcde"⟩, "Buy milk", none, .todo, .feature, .low,
    ⟨"user", "u1"⟩, 5, 7⟩

/-- Concrete valid create payload used by the closed theorems. -/
def exInput : TaskInput := ⟨"Buy milk", none, .todo, .feature, .low⟩

/-- Concrete valid update payload used by the closed theorems. -/
def exPatch : TaskPatch := ⟨some "New title", none, none, none, none⟩

/-- Concrete credential payload used by the closed theorems. -/
def exCred : Credential := ⟨"cid", some "pk", ["usb"], 3⟩

/-- Provider for which every call succeeds. -/
def provAllOk : Provider := ⟨some "lo", some "ro", true, none⟩

/-- Provider whose `login.initialize` throws. -/
def provLoginDown : Provider := ⟨none, some "ro", true, none⟩

/-- Provider whose `registration.initialize` throws. -/
def provRegDown : Provider := ⟨some "lo", none, true, none⟩

/-! Theorems settling the claims. -/

/-- Claim C8 (confirmed, session manager modelled from the spec):
after `clear()` on the session, a subsequent `read()` never reports a
`userId` — for every prior cookie state, reading the cleared cookie
yields the default session with no user. -/
theorem c8_cleared_session_reads_no_user (cookie : Option SessionData) :
    (sessionRead (sessionClear cookie)).userId = none := rfl

/-- Claim C2 (code bug): the first failed connection attempt is
memoized, and the next call to `getSurrealConnection` — even one whose
connect attempt would now succeed — returns the same rejected promise
and starts no new attempt, contradicting the required retry. -/
theorem c2_poisoned_connection_promise_reused :
    getSurrealConnection ⟨none⟩ true false =
      ⟨⟨some false⟩, false, true⟩ ∧
    getSurrealConnection (getSurrealConnection ⟨none⟩ true false).state
        true true =
      ⟨⟨some false⟩, false, false⟩ := by
  decide

/-- Helper: a successful `userSchema.safeParse` both returns the input
record and certifies its validity. -/
theorem userParse_some {r u : User} (h : userParse r = some u) :
    userValid u = true ∧ r = u := by
  unfold userParse at h
  by_cases hv : userValid r = true
  · rw [if_pos hv] at h
    cases h
    exact ⟨hv, rfl⟩
  · rw [if_neg hv] at h
    cases h

/-- Claim C4 (counterexample): a stored `user` record whose email
fails the shape validation is reported by `getUserByEmail` and
`getUserById` as `none` — exactly the ordinary not-found result an
empty directory produces — with no error of any kind. -/
theorem c4_mismatch_counterexample :
    userValid exBadUser = false ∧
    ([exBadUser].filter (fun v => v.email == "noemail")).head? =
      some exBadUser ∧
    getUserByEmail [exBadUser] "noemail" = none ∧
    getUserByEmail [] "noemail" = none ∧
    getUserById [exBadUser] "user:u2" = none ∧
    getUserById [] "user:u2" = none := by
  decide

/-- Claim C4 (amended): every record the user-directory lookups return
was validated against the User shape, but a shape mismatch is surfaced
as `null` — indistinguishable from not-found — rather than as a
`PersistenceError`. -/
theorem c4_lookup_validation_corrected (users : List User)
    (email id : String) :
    (∀ u, getUserByEmail users email = some u → userValid u = true) ∧
    (∀ u, getUserById users id = some u → userValid u = true) ∧
    (∀ r, (users.filter (fun v => v.email == email)).head? = some r →
      userValid r = false → getUserByEmail users email = none) := by
  refine ⟨?_, ?_, ?_⟩
  · intro u hu
    unfold getUserByEmail at hu
    split at hu
    · cases hu
    · exact (userParse_some hu).1
  · intro u hu
    simp only [getUserById] at hu
    split at hu
    · split at hu
      · cases hu
      · split at hu
        · cases hu
        · exact (userParse_some hu).1
    · cases hu
  · intro r hr hv
    simp [getUserByEmail, hr, userParse, hv]

/-- Claim C4 (witness): the amended statement applied to a one-record
directory on both sides of the validation split. -/
theorem c4_lookup_validation_witness :
    userValid exUser = true ∧
    getUserByEmail [exBadUser] "noemail" = none := by
  constructor
  · exact (c4_lookup_validation_corrected [exUser] "a@x.com" "user:u1").1
      exUser (by decide)
  · exact (c4_lookup_validation_corrected [exBadUser] "noemail" "x").2.2
      exBadUser (by decide) (by decide)

/-- Claim C10 (confirmed): `startServerPasskeyLogin` returns `null`
both for an unknown email and when the provider's login initialization
throws for a known email — the caller cannot tell the two apart — and
in the latter case the route falls into the registration branch, which
answers 409 for the already-registered email. -/
theorem c10_login_start_null_collapse (users : List User)
    (provider : Provider) (genId email : String) (u : User)
    (hu : getUserByEmail users email = some u)
    (hfail : provider.loginInit = none) :
    startServerPasskeyLogin users provider email = none ∧
    startServerPasskeyLogin [] provider email = none ∧
    (passkeysPOSTStart users provider genId email).2.status = 409 := by
  have h1 : startServerPasskeyLogin users provider email = none := by
    simp [startServerPasskeyLogin, hu, hfail]
  refine ⟨h1, ?_, ?_⟩
  · simp [startServerPasskeyLogin, getUserByEmail]
  · simp [passkeysPOSTStart, h1, startServerPasskeyRegistration, hu]

/-- Claim C10 (witness): a one-user directory with the provider's
login initialization down. -/
theorem c10_login_start_null_collapse_witness :
    startServerPasskeyLogin [exUser] provLoginDown "a@x.com" = none ∧
    startServerPasskeyLogin [] provLoginDown "a@x.com" = none ∧
    (passkeysPOSTStart [exUser] provLoginDown "g1" "a@x.com").2.status =
      409 :=
  c10_login_start_null_collapse [exUser] provLoginDown "g1" "a@x.com"
    exUser (by decide) rfl

/-- Claim C5 (confirmed): starting passkey registration for an email
the user directory already resolves throws the conflict error and
leaves the user table unchanged, and the route maps the thrown error
to HTTP 409. -/
theorem c5_existing_email_conflict (users : List User)
    (provider : Provider) (genId email : String) (u : User)
    (hu : getUserByEmail users email = some u) :
    startServerPasskeyRegistration users provider genId email =
      (users, .error ("Email " ++ email ++ " is already registered.")) ∧
    (provider.loginInit = none →
      passkeysPOSTStart users provider genId email =
        (users, ⟨409, some ("Email " ++ email ++ " is already registered."),
          none, none, none, none⟩)) := by
  have h1 : startServerPasskeyRegistration users provider genId email =
      (users, .error ("Email " ++ email ++ " is already registered.")) := by
    simp [startServerPasskeyRegistration, hu]
  refine ⟨h1, fun hfail => ?_⟩
  simp [passkeysPOSTStart, startServerPasskeyLogin, hu, hfail, h1]

/-- Claim C5 (witness): the conflict at a concrete one-user directory,
reached through the route when the provider's login initialization is
down. -/
theorem c5_existing_email_conflict_witness :
    startServerPasskeyRegistration [exUser] provLoginDown "g1" "a@x.com" =
      ([exUser], .error "Email a@x.com is already registered.") ∧
    passkeysPOSTStart [exUser] provLoginDown "g1" "a@x.com" =
      ([exUser], ⟨409, some "Email a@x.com is already registered.",
        none, none, none, none⟩) := by
  have h := c5_existing_email_conflict [exUser] provLoginDown "g1"
    "a@x.com" exUser (by decide)
  exact ⟨h.1, h.2 rfl⟩

/-- Claim C3 (confirmed): a PATCH or DELETE on an existing, valid task
whose author is not the session user answers 403 and leaves the task
table unchanged — no merge and no delete happens. -/
theorem c3_non_owner_forbidden_unchanged (session : SessionData)
    (uid : String) (tasks : List TaskRecord) (taskId : String)
    (rid : RecordIdObj) (t : TaskRecord) (patch : TaskPatch) (now : Nat)
    (hs : session.userId = some uid)
    (hparse : routeParseTaskId taskId = some rid)
    (hfind : tasks.find? (fun v => v.id == rid) = some t)
    (hvalid : taskValid t = true)
    (hauthor : t.author.tb ++ ":" ++ t.author.id ≠ uid) :
    tasksPATCH session tasks taskId patch now = (tasks, ⟨403, none⟩) ∧
    tasksDELETE session tasks taskId = (tasks, ⟨403, none⟩) := by
  have hne : (taskId == "") = false := by
    cases he : taskId == "" with
    | false => rfl
    | true =>
      have he2 : taskId = "" := by simpa using he
      rw [he2] at hparse
      have h0 : routeParseTaskId "" = none := by decide
      rw [h0] at hparse
      cases hparse
  have hcheck : getTaskAndCheckAuth tasks taskId uid =
      .error (403, "Forbidden: You do not own this task") := by
    simp [getTaskAndCheckAuth, hparse, hfind, hvalid, hauthor]
  constructor
  · simp [tasksPATCH, hs, hne, hparse, hcheck]
  · simp [tasksDELETE, hs, hne, hparse, hcheck]

/-- Claim C3 (witness): a foreign session user against the concrete
stored task. -/
theorem c3_non_owner_forbidden_witness :
    tasksPATCH ⟨some "user:u9"⟩ [exTask] "task:abcde" exPatch 9 =
      ([exTask], ⟨403, none⟩) ∧
    tasksDELETE ⟨some "user:u9"⟩ [exTask] "task:abcde" =
      ([exTask], ⟨403, none⟩) :=
  c3_non_owner_forbidden_unchanged ⟨some "user:u9"⟩ "user:u9" [exTask]
    "task:abcde" ⟨"task", "abcde"⟩ exTask exPatch 9 rfl (by decide)
    (by decide) (by decide) (by decide)

/-- Claim C9 (confirmed): in the finish branch with a `userId` field,
once the provider finalization and the credential write succeed, the
session's `userId` is set to exactly the client-supplied string — the
hypothesis `hghost` shows this happens even when that string resolves
to no user record, and the provider finalization never receives the
`userId` at all. -/
theorem c9_finish_sets_client_userid (users : List User)
    (passkeys : List Passkey) (provider : Provider) (genId : String)
    (now : Nat) (cookie : Option SessionData) (c : Credential)
    (uid : String)
    (hfin : provider.regFinalizeOk = true)
    (hpre : strStartsWith "user:" uid = true)
    (hghost : getUserById users uid = none) :
    passkeysPOSTFinish users passkeys provider genId now cookie c
        (some uid) =
      (passkeys ++ [⟨⟨"passkey", genId⟩, uid, c.id, c.publicKey.getD "N/A",
          c.transports, c.counter, now⟩],
        some ⟨some uid⟩, ⟨200, some "Registration successful."⟩) := by
  simp [passkeysPOSTFinish, finishServerPasskeyRegistration, hfin,
    storePasskeyCredential, passkeyValid, hpre, sessionUpdate]

/-- Claim C9 (witness): an empty user directory still gets the session
set to the client-supplied `user:ghost`. -/
theorem c9_finish_sets_client_userid_witness :
    passkeysPOSTFinish [] [] provAllOk "p1" 11 none exCred
        (some "user:ghost") =
      ([⟨⟨"passkey", "p1"⟩, "user:ghost", "cid", "pk", ["usb"], 3, 11⟩],
        some ⟨some "user:ghost"⟩,
        ⟨200, some "Registration successful."⟩) :=
  c9_finish_sets_client_userid [] [] provAllOk "p1" 11 none exCred
    "user:ghost" rfl (by decide) (by decide)

/-- Claim C1 (counterexample): with the provider's login
initialization down, a start request for a known email gets a 409
message with no login options; with the provider's registration
initialization down, a start request for an unknown email gets a 409
message with no registration options.  Both refute the claim's
unconditional response shapes. -/
theorem c1_start_branching_counterexample :
    (getUserByEmail [exUser] "a@x.com").isSome = true ∧
    passkeysPOSTStart [exUser] provLoginDown "g1" "a@x.com" =
      ([exUser], ⟨409, some "Email a@x.com is already registered.",
        none, none, none, none⟩) ∧
    getUserByEmail [] "b@x.com" = none ∧
    passkeysPOSTStart [] provRegDown "g1" "b@x.com" =
      ([⟨⟨"user", "g1"⟩, "b@x.com", none⟩],
        ⟨409, some "provider registration initialize failed",
          none, none, none, none⟩) := by
  decide

/-- Claim C1 (amended): a start request for an email the user
directory resolves never gets registration options, and gets login
options with `isRegistering:false` when the provider's login
initialization succeeds; for an unresolved email the login start
returns not-found (never a challenge) and the handler takes the
registration branch, answering with registration options, the new user
id and `isRegistering:true` when user creation and the provider's
registration initialization succeed. -/
theorem c1_start_branching_corrected (users : List User)
    (provider : Provider) (genId email : String) :
    (∀ u, getUserByEmail users email = some u →
      (passkeysPOSTStart users provider genId email).2.registrationOptions
          = none ∧
      ∀ o, provider.loginInit = some o →
        passkeysPOSTStart users provider genId email =
          (users, ⟨200, none, some o, none, none, some false⟩)) ∧
    (getUserByEmail users email = none →
      startServerPasskeyLogin users provider email = none ∧
      (emailValid email = true → ∀ o, provider.regInit = some o →
        passkeysPOSTStart users provider genId email =
          (users ++ [⟨⟨"user", genId⟩, email, none⟩],
            ⟨200, none, none, some o, some ("user:" ++ genId),
              some true⟩))) := by
  constructor
  · intro u hu
    cases hl : provider.loginInit with
    | some o0 =>
      have hres : passkeysPOSTStart users provider genId email =
          (users, ⟨200, none, some o0, none, none, some false⟩) := by
        simp [passkeysPOSTStart, startServerPasskeyLogin, hu, hl]
      refine ⟨by rw [hres], ?_⟩
      intro o ho
      cases ho
      exact hres
    | none =>
      have hres : passkeysPOSTStart users provider genId email =
          (users,
            ⟨409, some ("Email " ++ email ++ " is already registered."),
              none, none, none, none⟩) := by
        simp [passkeysPOSTStart, startServerPasskeyLogin,
          startServerPasskeyRegistration, hu, hl]
      refine ⟨by rw [hres], ?_⟩
      intro o ho
      cases ho
  · intro hu
    have hlog : startServerPasskeyLogin users provider email = none := by
      simp [startServerPasskeyLogin, hu]
    refine ⟨hlog, ?_⟩
    intro hv o ho
    simp [passkeysPOSTStart, hlog, startServerPasskeyRegistration, hu,
      createUser, userParse, userValid, hv, ho]

/-- Claim C1 (witness): the amended statement applied on both branches
with every provider call up. -/
theorem c1_start_branching_witness :
    passkeysPOSTStart [exUser] provAllOk "g1" "a@x.com" =
      ([exUser], ⟨200, none, some "lo", none, none, some false⟩) ∧
    passkeysPOSTStart [] provAllOk "g1" "b@x.com" =
      ([⟨⟨"user", "g1"⟩, "b@x.com", none⟩],
        ⟨200, none, none, some "ro", some "user:g1", some true⟩) := by
  constructor
  · exact ((c1_start_branching_corrected [exUser] provAllOk "g1"
      "a@x.com").1 exUser (by decide)).2 "lo" rfl
  · exact ((c1_start_branching_corrected [] provAllOk "g1" "b@x.com").2
      (by decide)).2 (by decide) "ro" rfl

/-- Claim C6 (confirmed): a task created through the create route and
then fetched by its id comes back as exactly the record the creation
returned — the client payload plus the server-assigned author and
timestamps — and the timestamps are monotone (`createdAt ≤ updatedAt`,
from the two sequential clock reads of the handler). -/
theorem c6_create_fetch_roundtrip (session : SessionData)
    (tasks : List TaskRecord) (genId : String) (now1 now2 : Nat)
    (payload : TaskInput) (uid : String) (rid a : RecordIdObj)
    (hs : session.userId = some uid)
    (hv : taskInputValid payload = true)
    (hlink : strToLink ("task:" ++ genId) = some rid)
    (hrtb : rid.tb = "task")
    (hroute : routeParseTaskId ("task:" ++ genId) = some rid)
    (ha : strToLink uid = some a)
    (hatb : a.tb = "user")
    (haid : a.tb ++ ":" ++ a.id = uid)
    (hfresh : tasks.find? (fun v => v.id == rid) = none)
    (hmono : now1 ≤ now2) :
    tasksPOST session tasks genId now1 now2 payload =
      (tasks ++ [createdTask payload rid a now1 now2],
        ⟨201, some (createdTask payload rid a now1 now2)⟩) ∧
    getTaskAndCheckAuth (tasks ++ [createdTask payload rid a now1 now2])
        ("task:" ++ genId) uid =
      .ok (createdTask payload rid a now1 now2) ∧
    (createdTask payload rid a now1 now2).createdAt ≤
      (createdTask payload rid a now1 now2).updatedAt := by
  have hv2 := hv
  simp only [taskInputValid, decide_eq_true_eq] at hv2
  have hval : taskValid (createdTask payload rid a now1 now2) = true := by
    simp [taskValid, createdTask, hrtb, hatb, hv2]
  have hpost : tasksPOST session tasks genId now1 now2 payload =
      (tasks ++ [createdTask payload rid a now1 now2],
        ⟨201, some (createdTask payload rid a now1 now2)⟩) := by
    simp [tasksPOST, hs, hv, hlink, ha, hfresh, hval]
  have hfind2 : (tasks ++ [createdTask payload rid a now1 now2]).find?
      (fun v => v.id == rid) =
      some (createdTask payload rid a now1 now2) := by
    rw [List.find?_append, hfresh]
    simp [createdTask]
  have hauth2 : (createdTask payload rid a now1 now2).author.tb ++ ":" ++
      (createdTask payload rid a now1 now2).author.id = uid := haid
  have hcheck : getTaskAndCheckAuth
      (tasks ++ [createdTask payload rid a now1 now2])
      ("task:" ++ genId) uid = .ok (createdTask payload rid a now1 now2) := by
    simp only [getTaskAndCheckAuth, hroute, hfind2, hval, hauth2]
    simp
  exact ⟨hpost, hcheck, hmono⟩

/-- Claim C6 (witness): the concrete round trip of the sample payload
through an empty task table. -/
theorem c6_create_fetch_roundtrip_witness :
    tasksPOST ⟨some "user:u1"⟩ [] "abcde" 5 7 exInput =
      ([exTask], ⟨201, some exTask⟩) ∧
    getTaskAndCheckAuth [exTask] "task:abcde" "user:u1" = .ok exTask ∧
    exTask.createdAt ≤ exTask.updatedAt :=
  c6_create_fetch_roundtrip ⟨some "user:u1"⟩ [] "abcde" 5 7 exInput
    "user:u1" ⟨"task", "abcde"⟩ ⟨"user", "u1"⟩ rfl (by decide)
    (by decide) rfl (by decide) (by decide) rfl (by decide) rfl
    (by decide)

/-- Claim C7 (confirmed): a valid payload posted with an authenticated
session is answered with status 201 and the created record, whose id
is the `task:`-prefixed generated id and whose author link renders
back to exactly the session user's identifier. -/
theorem c7_create_status_id_author (session : SessionData)
    (tasks : List TaskRecord) (genId : String) (now1 now2 : Nat)
    (payload : TaskInput) (uid : String) (a : RecordIdObj)
    (hs : session.userId = some uid)
    (hv : taskInputValid payload = true)
    (hlink : strToLink ("task:" ++ genId) = some ⟨"task", genId⟩)
    (ha : strToLink uid = some a)
    (hatb : a.tb = "user")
    (haid : a.tb ++ ":" ++ a.id = uid)
    (hfresh : tasks.find? (fun v => v.id == ⟨"task", genId⟩) = none) :
    (tasksPOST session tasks genId now1 now2 payload).2.status = 201 ∧
    (tasksPOST session tasks genId now1 now2 payload).2.data =
      some (createdTask payload ⟨"task", genId⟩ a now1 now2) ∧
    (createdTask payload ⟨"task", genId⟩ a now1 now2).id.tb = "task" ∧
    (createdTask payload ⟨"task", genId⟩ a now1 now2).author.tb ++ ":" ++
        (createdTask payload ⟨"task", genId⟩ a now1 now2).author.id =
      uid := by
  have hv2 := hv
  simp only [taskInputValid, decide_eq_true_eq] at hv2
  have hval : taskValid (createdTask payload ⟨"task", genId⟩ a now1 now2) =
      true := by
    simp [taskValid, createdTask, hatb, hv2]
  have hpost : tasksPOST session tasks genId now1 now2 payload =
      (tasks ++ [createdTask payload ⟨"task", genId⟩ a now1 now2],
        ⟨201, some (createdTask payload ⟨"task", genId⟩ a now1 now2)⟩) := by
    simp [tasksPOST, hs, hv, hlink, ha, hfresh, hval]
  exact ⟨by rw [hpost], by rw [hpost], rfl, haid⟩

/-- Claim C7 (witness): the sample payload created into an empty task
table with the session user `user:u1`. -/
theorem c7_create_status_id_author_witness :
    (tasksPOST ⟨some "user:u1"⟩ [] "abcde" 5 7 exInput).2.status = 201 ∧
    (tasksPOST ⟨some "user:u1"⟩ [] "abcde" 5 7 exInput).2.data =
      some exTask ∧
    exTask.id.tb = "task" ∧
    exTask.author.tb ++ ":" ++ exTask.author.id = "user:u1" :=
  c7_create_status_id_author ⟨some "user:u1"⟩ [] "abcde" 5 7 exInput
    "user:u1" ⟨"user", "u1"⟩ rfl (by decide) (by decide) (by decide)
    rfl rfl rfl

end Solid
